import Mathlib

/-
  Verification development for the DyslexiaAid color-coding practice engine.

  The definitions below are a shallow embedding of the JavaScript source
  (src/unnamed/part_000 and src/app.js).  Pure logic is translated into
  Lean functions; the mutable per-screen state becomes explicit record
  types with one Lean function per event handler.
-/

namespace DyslexiaAid

/-- Narrator state: the module-level isSpeaking flag together with the
utterance currently in flight (none when idle).  Models the speech layer
shared by src/unnamed/part_000 lines 10 and 133-168 and src/app.js
lines 10 and 115-147. -/
structure NarratorState where
  speaking : Bool
  inFlight : Option String
deriving DecidableEq

/-- speakText (src/unnamed/part_000 lines 133-168, src/app.js lines
115-147): if isSpeaking is already set the call returns immediately;
otherwise it marks the narrator busy and starts the new utterance. -/
def speakText (text : String) (s : NarratorState) : NarratorState :=
  if s.speaking then s
  else { speaking := true, inFlight := some text }

/-- The onend/onerror completion callback of speakText: clears the busy
flag; the utterance is no longer in flight. -/
def speechDone (_s : NarratorState) : NarratorState :=
  { speaking := false, inFlight := none }

/-- Feedback severity used by showScreen6Modal / showScreen7Modal (the
type argument: warning, success or error). -/
inductive Severity
  | warning
  | success
  | error
deriving DecidableEq

/-- A modal feedback message together with its severity class. -/
structure Feedback where
  message : String
  severity : Severity
deriving DecidableEq

/-- The handler currently bound to the check button (the source rebinds
checkBtn.onclick between checkScreenNAnswer, showScreenNExplanation and
resetScreenN). -/
inductive BtnAction
  | check
  | explanation
  | reset
deriving DecidableEq

/-- State of a free-mode question screen (screen 6, src/unnamed/part_000
lines 25-27 and 733-834; screen 7 is the identical machine on its own
globals, lines 30-32 and 1105-1206).  wordColors is the highlight ledger:
entry i is the color recorded for word-instance i, none when absent,
mirroring the screenNWordColors object keyed by word element index.
checkedAnswer is the single checked checkbox value (radio semantics).
The btn fields model the check button: hidden class, disabled property,
label and bound onclick handler. -/
structure FreeState where
  selectedColor : Option String
  eraserMode : Bool
  wordColors : List (Option String)
  checkedAnswer : Option String
  btnHidden : Bool
  btnDisabled : Bool
  btnLabel : String
  btnAction : BtnAction
deriving DecidableEq

/-- Color-button click handler of a free-mode screen
(src/unnamed/part_000 lines 740-755 and 1112-1127): ignored while the
narrator is speaking; otherwise arms the color and leaves eraser mode. -/
def freeColorClick (speaking : Bool) (c : String) (s : FreeState) : FreeState :=
  if speaking then s
  else { s with selectedColor := some c, eraserMode := false }

/-- Eraser-button click handler (src/unnamed/part_000 lines 758-768 and
1130-1140): ignored while speaking; otherwise enters eraser mode and
disarms the color. -/
def freeEraserClick (speaking : Bool) (s : FreeState) : FreeState :=
  if speaking then s
  else { s with eraserMode := true, selectedColor := none }

/-- The no-color-armed warning shown by the free-mode word handler. -/
def noColorWarning : Feedback :=
  ⟨"Please select a colour from the colour picker first.", .warning⟩

/-- Word click handler of a free-mode screen (src/unnamed/part_000 lines
776-799 and 1148-1171).  Ignored while speaking.  In eraser mode an
existing entry is deleted and an absent entry is left alone; with a color
armed the entry is overwritten unconditionally; with nothing armed a
warning modal is requested and nothing changes.  The second component is
the modal feedback the handler raises, if any. -/
def freeWordClick (speaking : Bool) (i : Nat) (s : FreeState) :
    FreeState × Option Feedback :=
  if speaking then (s, none)
  else if s.eraserMode then
    if (s.wordColors.getD i none).isSome then
      ({ s with wordColors := s.wordColors.set i none }, none)
    else (s, none)
  else
    match s.selectedColor with
    | some c => ({ s with wordColors := s.wordColors.set i (some c) }, none)
    | none => (s, some noColorWarning)

/-- Checkbox change handler of a free-mode screen (src/unnamed/part_000
lines 812-833 and 1184-1205).  The event fires after the checkbox
toggled.  Checking a box unchecks the others (radio behaviour) and shows
the check button; unchecking the last checked box hides the button. -/
def freeAnswerChange (v : String) (isChecked : Bool) (s : FreeState) : FreeState :=
  if isChecked then { s with checkedAnswer := some v, btnHidden := false }
  else
    let remaining := if s.checkedAnswer == some v then none else s.checkedAnswer
    if remaining.isNone then { s with checkedAnswer := remaining, btnHidden := true }
    else { s with checkedAnswer := remaining }

/-- Colors recorded for one word label, as a set (the wordToColors map of
isColorCodingCorrect, src/unnamed/part_000 lines 889-907): the deduped
ledger entries of every instance carrying that label, where none stands
for an absent entry (the JavaScript undefined). -/
def colorsOfWord (l : List (String × Option String)) (w : String) :
    List (Option String) :=
  ((l.filter (fun p => p.1 == w)).map Prod.snd).dedup

/-- Word labels recorded for one ledger color, as a set (the colorToWords
map of isColorCodingCorrect). -/
def wordsOfColor (l : List (String × Option String)) (c : Option String) :
    List String :=
  ((l.filter (fun p => p.2 == c)).map Prod.fst).dedup

/-- isColorCodingCorrect (src/unnamed/part_000 lines 885-924) and the
identical isScreen7ColorCodingCorrect (lines 1257-1296).  The input list
pairs each word-instance label with its ledger entry, in screen order.
The check builds the word-to-colors and color-to-words maps and demands
every bucket be a singleton. -/
def isColorCodingCorrect (l : List (String × Option String)) : Bool :=
  ((l.map Prod.fst).dedup.all (fun w => decide ((colorsOfWord l w).length ≤ 1))) &&
  ((l.map Prod.snd).dedup.all (fun c => decide ((wordsOfColor l c).length ≤ 1)))

/-- The incomplete-ledger warning of checkScreenNAnswer. -/
def incompleteWarning : Feedback :=
  ⟨"Please finish colour coding all options.", .warning⟩

/-- The no-answer-chosen warning of checkScreenNAnswer. -/
def noAnswerWarning : Feedback :=
  ⟨"Please select an answer by ticking one of the checkboxes.", .warning⟩

/-- checkScreen6Answer (src/unnamed/part_000 lines 836-883) and
checkScreen7Answer (lines 1208-1254), parameterised by the data that
differs between the two screens: the list of word labels on the screen,
the correct checkbox value (`c` on screen 6, `b` on screen 7) and the two
replacement button labels.  Returns the updated state and the modal
feedback shown. -/
def checkAnswer (words : List String) (correctValue explLabel resetLabel : String)
    (s : FreeState) : FreeState × Option Feedback :=
  if s.wordColors.countP (fun e => e.isSome) < words.length then
    (s, some incompleteWarning)
  else
    match s.checkedAnswer with
    | none => (s, some noAnswerWarning)
    | some v =>
      let codingCorrect := isColorCodingCorrect (words.zip s.wordColors)
      let answerCorrect := v == correctValue
      if answerCorrect && codingCorrect then
        ({ s with btnDisabled := true },
         some ⟨"That is the correct answer. Good job!", .success⟩)
      else if answerCorrect && !codingCorrect then
        ({ s with btnDisabled := true },
         some ⟨"That is the correct answer. But the colour coding was a bit mixed up.", .success⟩)
      else if !answerCorrect && codingCorrect then
        ({ s with btnLabel := explLabel, btnAction := .explanation },
         some ⟨"Sorry! That is the wrong answer.", .error⟩)
      else
        ({ s with btnLabel := resetLabel, btnAction := .reset },
         some ⟨"Sorry! That is the wrong answer. Also, the colour coding was a bit mixed up.", .error⟩)

/-- The next affordance offered after evaluation. -/
inductive Affordance
  | permanentlyDisabled
  | relabelExplanation
  | relabelReset
deriving DecidableEq

/-- Spec-side definition of the section 4.4 outcome table (next
affordance column), written from the words of the specification for
comparison against checkAnswer. -/
def tableAffordance : Bool → Bool → Affordance
  | true, _ => .permanentlyDisabled
  | false, true => .relabelExplanation
  | false, false => .relabelReset

/-- Spec-side definition of the section 4.4 outcome table (feedback
column): success messages for a correct answer, error messages
otherwise, the text qualified exactly when the coding is mixed up. -/
def tableFeedback : Bool → Bool → Feedback
  | true, true => ⟨"That is the correct answer. Good job!", .success⟩
  | true, false => ⟨"That is the correct answer. But the colour coding was a bit mixed up.", .success⟩
  | false, true => ⟨"Sorry! That is the wrong answer.", .error⟩
  | false, false => ⟨"Sorry! That is the wrong answer. Also, the colour coding was a bit mixed up.", .error⟩

/-- How each affordance acts on the button state: disable it, or relabel
it and rebind its handler. -/
def applyAffordance (explLabel resetLabel : String) (a : Affordance)
    (s : FreeState) : FreeState :=
  match a with
  | .permanentlyDisabled => { s with btnDisabled := true }
  | .relabelExplanation => { s with btnLabel := explLabel, btnAction := .explanation }
  | .relabelReset => { s with btnLabel := resetLabel, btnAction := .reset }

/-- getColorName (src/unnamed/part_000 lines 627-638): hex to spoken
color name, falling back to a generic phrase. -/
def getColorName (hex : String) : String :=
  if hex == "#f5d3ed" then "pink"
  else if hex == "#dcf5d3" then "green"
  else if hex == "#f6f7b9" then "yellow"
  else if hex == "#c5c5c5" then "grey"
  else if hex == "#cee6ff" then "blue"
  else if hex == "#9abecc" then "teal"
  else if hex == "#f9a2a2" then "red"
  else "this colour"

/-- State of the guided practice screen (screen 5,
src/unnamed/part_000 lines 18-22, 489 and 491-625; src/app.js lines
14-18, 370 and 372-506).  highlighted is the highlightedWords set of
word-instance indices; disabledColors records which color buttons have
been disabled, keyed by their bound word; wordColorMap mirrors the
module-level wordColorMap object. -/
structure GuidedState where
  selectedColor : Option String
  selectedWord : Option String
  highlighted : Finset Nat
  disabledColors : Finset String
  wordColorMap : List (String × String)
  checkboxesEnabled : Bool
deriving DecidableEq

/-- Update of the wordColorMap object: replace the value under an
existing key, or append a new binding. -/
def setWordColor (m : List (String × String)) (k v : String) :
    List (String × String) :=
  if m.any (fun p => p.1 == k) then
    m.map (fun p => if p.1 == k then (k, v) else p)
  else m ++ [(k, v)]

/-- Guided-mode color-button click (src/unnamed/part_000 lines 522-544,
src/app.js lines 403-426).  A disabled button, or any click while the
narrator is speaking, is ignored; otherwise the color and its bound word
are armed, the wordColorMap is updated and an instruction is spoken. -/
def guidedColorClick (speaking : Bool) (c w : String) (s : GuidedState) :
    GuidedState × Option String :=
  if w ∈ s.disabledColors ∨ speaking = true then (s, none)
  else
    ({ s with selectedColor := some c, selectedWord := some w,
              wordColorMap := setWordColor s.wordColorMap w c },
     some ("Highlight the word " ++ w ++ " with " ++ getColorName c ++ "."))

/-- Guided-mode word click (src/unnamed/part_000 lines 554-615,
src/app.js lines 435-496), with words the list of word labels by screen
index.  With nothing armed it speaks a prompt; an already highlighted
instance is a silent no-op; a click on the armed word highlights the
instance, disables the color button and clears the armed selection once
every instance of that word is highlighted, and enables the answer
checkboxes once every instance on the screen is highlighted; a click on
any other word speaks a corrective message.  The second component is the
utterance passed to speakText, if any. -/
def guidedWordClick (words : List String) (i : Nat) (s : GuidedState) :
    GuidedState × Option String :=
  match s.selectedColor, s.selectedWord with
  | some _, some w =>
    if i ∈ s.highlighted then (s, none)
    else
      let clicked := words.getD i ("")
      if clicked == w then
        let hl := insert i s.highlighted
        let allHighlighted :=
          ((List.range words.length).filter (fun j => words.getD j ("") == clicked)).all
            (fun j => decide (j ∈ hl))
        let s1 := { s with highlighted := hl }
        let s2 :=
          if allHighlighted then
            { s1 with disabledColors := insert clicked s1.disabledColors,
                      selectedColor := none, selectedWord := none }
          else s1
        let s3 :=
          if words.length ≤ hl.card then { s2 with checkboxesEnabled := true }
          else s2
        (s3, none)
      else
        (s, some ("That\x27s " ++ clicked ++ ". Please highlight " ++ w ++ "."))
  | _, _ => (s, some ("Please select a colour from the colour picker first."))

/-- The per-group explanation sentence of showScreen6Explanation
(src/unnamed/part_000 lines 969-971), showScreen7Explanation (lines
1353-1355) and checkPracticeAnswers (lines 661-663): singular wording
exactly when the occurrence count is 1. -/
def groupSentence (count : Nat) (colorName word : String) : String :=
  if count = 1 then
    "There is " ++ toString count ++ " answer that is coloured " ++ colorName ++
      " for " ++ word ++ "."
  else
    "There are " ++ toString count ++ " answers that are coloured " ++ colorName ++
      " for " ++ word ++"."

/-- The per-group sentence of checkPracticeAnswers in src/app.js (line
542): the plural wording is used for every count. -/
def appJsGroupSentence (count : Nat) (colorName word : String) : String :=
  "There are " ++ toString count ++ " answers that are coloured " ++ colorName ++
    " for " ++ word ++ "."

/-- Sample free-mode screen data for concrete witnesses: two word
labels. -/
def sampleWords : List String := ["Mercury", "Venus"]

/-- A free-mode state whose ledger is complete and whose answer `a` is
chosen, check button visible. -/
def sampleComplete : FreeState :=
  ⟨none, false, [some ("#f5d3ed"), some ("#cee6ff")], some ("a"), false, false,
   "Check your answer", .check⟩

/-- A free-mode state with an armed color and one already-painted word,
for the overwrite and idempotence witnesses. -/
def sampleArmed : FreeState :=
  ⟨some ("#f9a2a2"), false, [some ("#cee6ff")], none, true, false,
   "Check your answer", .check⟩

/-- A free-mode state in eraser mode with an empty ledger entry. -/
def sampleEraser : FreeState :=
  ⟨none, true, [none], none, true, false, "Check your answer", .check⟩

/-- Sample guided screen data: word A appears twice, word B once. -/
def sampleGuidedWords : List String := ["A", "A", "B"]

/-- Guided state: color for word A armed, instance 0 of A already
highlighted. -/
def sampleGuided : GuidedState :=
  ⟨some ("#f5d3ed"), some ("A"), {0}, ∅, [("A", "#f5d3ed")], false⟩

/-- Guided state: color bound to word B armed while instance 0 (word A)
is already highlighted. -/
def sampleGuidedMismatch : GuidedState :=
  ⟨some ("#f9a2a2"), some ("B"), {0}, ∅, [], false⟩

/-- Guided state: color bound to word B armed, nothing highlighted. -/
def sampleGuidedFresh : GuidedState :=
  ⟨some ("#f9a2a2"), some ("B"), ∅, ∅, [], false⟩

/-- A complete three-instance coloring: both instances of A pink, the
instance of B blue. -/
def sampleColoring : List (String × Option String) :=
  [("A", some ("#f5d3ed")), ("A", some ("#f5d3ed")), ("B", some ("#cee6ff"))]

/-- A deduplicated list is a singleton or empty exactly when the
underlying list has all its elements equal. -/
theorem dedup_length_le_one_iff {α : Type} [DecidableEq α] (m : List α) :
    m.dedup.length ≤ 1 ↔ ∀ a ∈ m, ∀ b ∈ m, a = b := by
  constructor
  · intro h a ha b hb
    have ha' : a ∈ m.dedup := List.mem_dedup.mpr ha
    have hb' : b ∈ m.dedup := List.mem_dedup.mpr hb
    cases hd : m.dedup with
    | nil => rw [hd] at ha'; exact absurd ha' (List.not_mem_nil a)
    | cons x t =>
      cases t with
      | nil =>
        rw [hd] at ha' hb'
        have h1 : a = x := by simpa using ha'
        have h2 : b = x := by simpa using hb'
        rw [h1, h2]
      | cons y u =>
        rw [hd] at h
        simp at h
  · intro h
    cases hd : m.dedup with
    | nil => simp
    | cons x t =>
      cases t with
      | nil => simp
      | cons y u =>
        exfalso
        have hx : x ∈ m := List.mem_dedup.mp (by rw [hd]; exact List.mem_cons_self x (y :: u))
        have hy : y ∈ m :=
          List.mem_dedup.mp (by rw [hd]; exact List.mem_cons_of_mem x (List.mem_cons_self y u))
        have hxy : x = y := h x hx y hy
        have hnd : m.dedup.Nodup := List.nodup_dedup m
        rw [hd, List.nodup_cons] at hnd
        exact hnd.1 (by rw [hxy]; exact List.mem_cons_self y u)

/-- Every word bucket of the wordToColors map is a singleton exactly when
the label-to-entry relation is single-valued. -/
theorem colorsOfWord_single_iff (l : List (String × Option String)) :
    (∀ w ∈ (l.map Prod.fst).dedup, (colorsOfWord l w).length ≤ 1) ↔
      ∀ p ∈ l, ∀ q ∈ l, p.1 = q.1 → p.2 = q.2 := by
  constructor
  · intro h p hp q hq hpq
    have hw : p.1 ∈ (l.map Prod.fst).dedup :=
      List.mem_dedup.mpr (List.mem_map_of_mem Prod.fst hp)
    have h1 := h p.1 hw
    unfold colorsOfWord at h1
    rw [dedup_length_le_one_iff] at h1
    apply h1
    · exact List.mem_map_of_mem Prod.snd (List.mem_filter.mpr ⟨hp, by simp⟩)
    · exact List.mem_map_of_mem Prod.snd (List.mem_filter.mpr ⟨hq, by simp [hpq]⟩)
  · intro h w _hw
    unfold colorsOfWord
    rw [dedup_length_le_one_iff]
    intro a ha b hb
    rcases List.mem_map.mp ha with ⟨p, hpf, hpa⟩
    rcases List.mem_map.mp hb with ⟨q, hqf, hqb⟩
    rcases List.mem_filter.mp hpf with ⟨hp, hpw⟩
    rcases List.mem_filter.mp hqf with ⟨hq, hqw⟩
    have hpw' : p.1 = w := by simpa using hpw
    have hqw' : q.1 = w := by simpa using hqw
    rw [← hpa, ← hqb]
    exact h p hp q hq (by rw [hpw', hqw'])

/-- Every color bucket of the colorToWords map is a singleton exactly
when the entry-to-label relation is single-valued. -/
theorem wordsOfColor_single_iff (l : List (String × Option String)) :
    (∀ c ∈ (l.map Prod.snd).dedup, (wordsOfColor l c).length ≤ 1) ↔
      ∀ p ∈ l, ∀ q ∈ l, p.2 = q.2 → p.1 = q.1 := by
  constructor
  · intro h p hp q hq hpq
    have hc : p.2 ∈ (l.map Prod.snd).dedup :=
      List.mem_dedup.mpr (List.mem_map_of_mem Prod.snd hp)
    have h1 := h p.2 hc
    unfold wordsOfColor at h1
    rw [dedup_length_le_one_iff] at h1
    apply h1
    · exact List.mem_map_of_mem Prod.fst (List.mem_filter.mpr ⟨hp, by simp⟩)
    · exact List.mem_map_of_mem Prod.fst (List.mem_filter.mpr ⟨hq, by simp [hpq]⟩)
  · intro h c _hc
    unfold wordsOfColor
    rw [dedup_length_le_one_iff]
    intro a ha b hb
    rcases List.mem_map.mp ha with ⟨p, hpf, hpa⟩
    rcases List.mem_map.mp hb with ⟨q, hqf, hqb⟩
    rcases List.mem_filter.mp hpf with ⟨hp, hpw⟩
    rcases List.mem_filter.mp hqf with ⟨hq, hqw⟩
    have hpw' : p.2 = c := by simpa using hpw
    have hqw' : q.2 = c := by simpa using hqw
    rw [← hpa, ← hqb]
    exact h p hp q hq (by rw [hpw', hqw'])

/-- C1: over complete colorings, isColorCodingCorrect (and the identical
isScreen7ColorCodingCorrect) returns true exactly when the induced
word-to-color and color-to-word mappings are both single-valued: a word
label carrying two different colors, or two distinct word labels sharing
one color, makes it false, and otherwise it is true. -/
theorem isColorCodingCorrect_iff (l : List (String × Option String))
    (_hc : ∀ p ∈ l, p.2.isSome = true) :
    isColorCodingCorrect l = true ↔
      ((∀ p ∈ l, ∀ q ∈ l, p.1 = q.1 → p.2 = q.2) ∧
       (∀ p ∈ l, ∀ q ∈ l, p.2 = q.2 → p.1 = q.1)) := by
  unfold isColorCodingCorrect
  rw [Bool.and_eq_true, List.all_eq_true, List.all_eq_true]
  constructor
  · rintro ⟨h1, h2⟩
    exact ⟨(colorsOfWord_single_iff l).mp (fun w hw => of_decide_eq_true (h1 w hw)),
           (wordsOfColor_single_iff l).mp (fun c hc2 => of_decide_eq_true (h2 c hc2))⟩
  · rintro ⟨h1, h2⟩
    exact ⟨fun w hw => decide_eq_true ((colorsOfWord_single_iff l).mpr h1 w hw),
           fun c hc2 => decide_eq_true ((wordsOfColor_single_iff l).mpr h2 c hc2)⟩

/-- Witness for C1 at the concrete complete coloring sampleColoring. -/
theorem isColorCodingCorrect_iff_witness :
    (∀ p ∈ sampleColoring, p.2.isSome = true) ∧
      (isColorCodingCorrect sampleColoring = true ↔
        ((∀ p ∈ sampleColoring, ∀ q ∈ sampleColoring, p.1 = q.1 → p.2 = q.2) ∧
         (∀ p ∈ sampleColoring, ∀ q ∈ sampleColoring, p.2 = q.2 → p.1 = q.1))) :=
  ⟨by decide, isColorCodingCorrect_iff sampleColoring (by decide)⟩

/-- C2: once the completeness and answer-chosen preconditions hold, the
evaluation of checkScreen6Answer / checkScreen7Answer is a pure function
of the pair (answerCorrect, codingCorrect): the state change is exactly
the table affordance applied to the incoming state and the modal
feedback is exactly the table row, independent of any other state. -/
theorem checkAnswer_outcome_table (words : List String) (cv el rl v : String)
    (s : FreeState)
    (hcomplete : ¬ s.wordColors.countP (fun e => e.isSome) < words.length)
    (hans : s.checkedAnswer = some v) :
    checkAnswer words cv el rl s =
      (applyAffordance el rl
         (tableAffordance (v == cv) (isColorCodingCorrect (words.zip s.wordColors))) s,
       some (tableFeedback (v == cv) (isColorCodingCorrect (words.zip s.wordColors)))) := by
  unfold checkAnswer
  rw [if_neg hcomplete, hans]
  cases hb : (v == cv) <;>
    cases hcc : isColorCodingCorrect (words.zip s.wordColors) <;>
      simp [tableAffordance, tableFeedback, applyAffordance, hb, hcc, hans]

/-- Witness for C2 at a concrete complete state with answer a chosen on
a screen whose correct value is c. -/
theorem checkAnswer_outcome_table_witness :
    (¬ sampleComplete.wordColors.countP (fun e => e.isSome) < sampleWords.length) ∧
    sampleComplete.checkedAnswer = some ("a") ∧
    checkAnswer sampleWords ("c") ("Explanation") ("Reset and try again") sampleComplete =
      (applyAffordance ("Explanation") ("Reset and try again")
         (tableAffordance (("a" : String) == "c")
            (isColorCodingCorrect (sampleWords.zip sampleComplete.wordColors)))
         sampleComplete,
       some (tableFeedback (("a" : String) == "c")
          (isColorCodingCorrect (sampleWords.zip sampleComplete.wordColors)))) :=
  ⟨by decide, rfl,
   checkAnswer_outcome_table sampleWords ("c") ("Explanation") ("Reset and try again")
     ("a") sampleComplete (by decide) rfl⟩

/-- C3: a free-mode submission with an incomplete ledger is rejected
with the completeness warning (this is checked first, whatever the
answer choice), and a complete submission with no answer chosen is
rejected with the answer-choice warning; in both cases the returned
state is the incoming state, so the ledger, selection state and answer
choice are untouched. -/
theorem checkAnswer_precondition_order (words : List String) (cv el rl : String)
    (s : FreeState) (hlen : s.wordColors.length = words.length) :
    ((¬ ∀ e ∈ s.wordColors, e.isSome = true) →
        checkAnswer words cv el rl s = (s, some incompleteWarning)) ∧
    ((∀ e ∈ s.wordColors, e.isSome = true) → s.checkedAnswer = none →
        checkAnswer words cv el rl s = (s, some noAnswerWarning)) := by
  constructor
  · intro hinc
    have hne : s.wordColors.countP (fun e => e.isSome) ≠ s.wordColors.length := by
      intro he
      exact hinc (by simpa using List.countP_eq_length.mp he)
    have hle : s.wordColors.countP (fun e => e.isSome) ≤ s.wordColors.length :=
      List.countP_le_length _
    have hlt : s.wordColors.countP (fun e => e.isSome) < words.length := by omega
    unfold checkAnswer
    rw [if_pos hlt]
  · intro hcomp hans
    have heq : s.wordColors.countP (fun e => e.isSome) = s.wordColors.length :=
      List.countP_eq_length.mpr (by simpa using hcomp)
    unfold checkAnswer
    rw [if_neg (by omega), hans]

/-- Witness for C3: an incomplete state is turned back with the
completeness warning and no state change. -/
theorem checkAnswer_precondition_order_witness :
    sampleEraser.wordColors.length = (["Mars"] : List String).length ∧
    (¬ ∀ e ∈ sampleEraser.wordColors, e.isSome = true) ∧
    checkAnswer ["Mars"] ("c") ("Explanation") ("Reset and try again") sampleEraser =
      (sampleEraser, some incompleteWarning) :=
  ⟨rfl, by decide,
   (checkAnswer_precondition_order ["Mars"] ("c") ("Explanation") ("Reset and try again")
      sampleEraser rfl).1 (by decide)⟩

/-- C4: a speakText call made while the narrator is busy is a no-op:
the narrator state, in particular the utterance in flight, is unchanged
and nothing is queued, so at most one utterance is ever in flight. -/
theorem speakText_busy_noop (text : String) (s : NarratorState)
    (h : s.speaking = true) :
    speakText text s = s := by
  unfold speakText
  rw [if_pos h]

/-- Witness for C4 at a concrete busy narrator. -/
theorem speakText_busy_noop_witness :
    (NarratorState.mk true (some ("hello"))).speaking = true ∧
    speakText ("bye") (NarratorState.mk true (some ("hello"))) =
      NarratorState.mk true (some ("hello")) :=
  ⟨rfl, speakText_busy_noop ("bye") (NarratorState.mk true (some ("hello"))) rfl⟩

/-- C9: the free-mode ledger operations are idempotent at the edges:
with a color armed, clicking the same word twice leaves the same state
as clicking it once, and an eraser click on an instance with no
recorded color is a complete no-op. -/
theorem freeWordClick_idempotent_edges (i : Nat) (c : String) (s : FreeState) :
    (s.eraserMode = false → s.selectedColor = some c →
      (freeWordClick false i (freeWordClick false i s).1).1 =
        (freeWordClick false i s).1) ∧
    (s.eraserMode = true → s.wordColors.getD i none = none →
      freeWordClick false i s = (s, none)) := by
  constructor
  · intro he hc
    simp [freeWordClick, he, hc, List.set_set]
  · intro he hm
    have hm' : s.wordColors[i]?.getD none = none := by simpa using hm
    simp [freeWordClick, he, hm']

/-- Witness for C9: painting the only word twice with the armed color,
and erasing an absent entry. -/
theorem freeWordClick_idempotent_edges_witness :
    (sampleArmed.eraserMode = false ∧ sampleArmed.selectedColor = some ("#f9a2a2") ∧
      (freeWordClick false 0 (freeWordClick false 0 sampleArmed).1).1 =
        (freeWordClick false 0 sampleArmed).1) ∧
    (sampleEraser.eraserMode = true ∧ sampleEraser.wordColors.getD 0 none = none ∧
      freeWordClick false 0 sampleEraser = (sampleEraser, none)) :=
  ⟨⟨rfl, rfl, (freeWordClick_idempotent_edges 0 ("#f9a2a2") sampleArmed).1 rfl rfl⟩,
   ⟨rfl, rfl, (freeWordClick_idempotent_edges 0 ("#f9a2a2") sampleEraser).2 rfl rfl⟩⟩

/-- C10: in free mode a word click with a color armed always records the
armed color for that instance, silently replacing any previous entry:
no feedback is raised and the ledger entry afterwards is exactly the
armed color. -/
theorem freeWordClick_overwrites (i : Nat) (c : String) (s : FreeState)
    (he : s.eraserMode = false) (hc : s.selectedColor = some c) :
    freeWordClick false i s =
      ({ s with wordColors := s.wordColors.set i (some c) }, none) ∧
    (i < s.wordColors.length →
      ((freeWordClick false i s).1.wordColors.getD i none) = some c) := by
  have h1 : freeWordClick false i s =
      ({ s with wordColors := s.wordColors.set i (some c) }, none) := by
    simp [freeWordClick, he, hc]
  refine ⟨h1, fun hi => ?_⟩
  rw [h1]
  show (s.wordColors.set i (some c)).getD i none = some c
  rw [List.getD_eq_getElem?_getD, List.getElem?_set_eq_of_lt (some c) hi]
  rfl

/-- Witness for C10: repainting a word already coloured blue with the
armed red succeeds silently and leaves exactly red in the ledger. -/
theorem freeWordClick_overwrites_witness :
    sampleArmed.eraserMode = false ∧ sampleArmed.selectedColor = some ("#f9a2a2") ∧
    0 < sampleArmed.wordColors.length ∧
    freeWordClick false 0 sampleArmed =
      ({ sampleArmed with wordColors := sampleArmed.wordColors.set 0 (some ("#f9a2a2")) },
       none) ∧
    ((freeWordClick false 0 sampleArmed).1.wordColors.getD 0 none) = some ("#f9a2a2") :=
  ⟨rfl, rfl, by decide,
   (freeWordClick_overwrites 0 ("#f9a2a2") sampleArmed rfl rfl).1,
   (freeWordClick_overwrites 0 ("#f9a2a2") sampleArmed rfl rfl).2 (by decide)⟩

/-- C7 counterexample: in a state whose ledger is complete, whose answer
is chosen and whose check button is visible, unchecking the chosen
answer hides the button again, so an intermediate interaction does take
the submission control away. -/
theorem freeAnswerChange_uncheck_hides :
    sampleComplete.btnHidden = false ∧
    (¬ sampleComplete.wordColors.countP (fun e => e.isSome) < sampleWords.length) ∧
    sampleComplete.checkedAnswer = some ("a") ∧
    (freeAnswerChange ("a") false sampleComplete).btnHidden = true :=
  ⟨rfl, by decide, rfl, by decide⟩

/-- C7 amended: once the check button is visible it stays visible under
color clicks, eraser clicks, word clicks, checking an answer option and
submission evaluation; only unchecking the chosen answer (leaving none
selected), a reset, or navigation, hides it again. -/
theorem freeControl_visibility_preserved (words : List String) (cv el rl c v : String)
    (i : Nat) (sp : Bool) (s : FreeState) (h : s.btnHidden = false) :
    (freeColorClick sp c s).btnHidden = false ∧
    (freeEraserClick sp s).btnHidden = false ∧
    ((freeWordClick sp i s).1).btnHidden = false ∧
    (freeAnswerChange v true s).btnHidden = false ∧
    ((checkAnswer words cv el rl s).1).btnHidden = false := by
  refine ⟨?_, ?_, ?_, ?_, ?_⟩
  · unfold freeColorClick
    split <;> simp [h]
  · unfold freeEraserClick
    split <;> simp [h]
  · unfold freeWordClick
    repeat' split
    all_goals exact h
  · unfold freeAnswerChange
    simp
  · unfold checkAnswer
    split
    · exact h
    · split
      · exact h
      · dsimp only
        split
        · exact h
        · split
          · exact h
          · split
            · exact h
            · exact h

/-- Witness for the amended C7 statement at a concrete visible state. -/
theorem freeControl_visibility_preserved_witness :
    sampleComplete.btnHidden = false ∧
    ((freeColorClick false ("#f5d3ed") sampleComplete).btnHidden = false ∧
     (freeEraserClick false sampleComplete).btnHidden = false ∧
     ((freeWordClick false 0 sampleComplete).1).btnHidden = false ∧
     (freeAnswerChange ("b") true sampleComplete).btnHidden = false ∧
     ((checkAnswer sampleWords ("c") ("Explanation") ("Reset and try again")
         sampleComplete).1).btnHidden = false) :=
  ⟨rfl,
   freeControl_visibility_preserved sampleWords ("c") ("Explanation")
     ("Reset and try again") ("#f5d3ed") ("b") 0 false sampleComplete rfl⟩

/-- C5: in guided mode, the click that highlights the last remaining
instance of the armed word disables that word's color control and clears
the armed selection; and a disabled control is permanent: every further
word or color click keeps it disabled, and clicking the disabled control
itself is a complete no-op, so it can never be re-armed. -/
theorem guidedColorControl_single_use (words : List String) (i : Nat) (c w : String)
    (s : GuidedState)
    (hc : s.selectedColor = some c) (hw : s.selectedWord = some w)
    (hh : i ∉ s.highlighted) (hiw : words.getD i ("") = w)
    (hall : ∀ j, j < words.length → words.getD j ("") = w →
      j ∈ insert i s.highlighted) :
    (w ∈ ((guidedWordClick words i s).1).disabledColors ∧
     ((guidedWordClick words i s).1).selectedColor = none ∧
     ((guidedWordClick words i s).1).selectedWord = none) ∧
    (∀ (t : GuidedState) (ws : List String) (j : Nat) (sp : Bool) (c2 w2 : String),
       w ∈ t.disabledColors →
         w ∈ ((guidedWordClick ws j t).1).disabledColors ∧
         w ∈ ((guidedColorClick sp c2 w2 t).1).disabledColors ∧
         guidedColorClick sp c2 w t = (t, none)) := by
  constructor
  · have hiw' : words[i]?.getD "" = w := by simpa using hiw
    have hbeq : (words.getD i ("") == w) = true := by simp [hiw']
    have hallb :
        (((List.range words.length).filter
            (fun j => words.getD j ("") == words.getD i (""))).all
          (fun j => decide (j ∈ insert i s.highlighted))) = true := by
      rw [List.all_eq_true]
      intro j hj
      rcases List.mem_filter.mp hj with ⟨hjr, hjw⟩
      have hjlt : j < words.length := List.mem_range.mp hjr
      have hji : words.getD j ("") = words.getD i ("") := by
        have h2 : words[j]?.getD "" = words[i]?.getD "" := by simpa using hjw
        simpa using h2
      have hjw' : words.getD j ("") = w := by rw [hji]; exact hiw
      exact decide_eq_true (hall j hjlt hjw')
    simp only [guidedWordClick, hc, hw]
    rw [if_neg hh]
    simp only [hbeq, hallb, if_true]
    refine ⟨?_, ?_, ?_⟩ <;> split <;> simp [hiw']
  · intro t ws j sp c2 w2 hmem
    refine ⟨?_, ?_, ?_⟩
    · unfold guidedWordClick
      repeat' (first | split | dsimp only)
      all_goals first
        | exact hmem
        | exact Finset.mem_insert_of_mem hmem
    · unfold guidedColorClick
      split
      · exact hmem
      · exact hmem
    · unfold guidedColorClick
      rw [if_pos (Or.inl hmem)]

/-- Witness for C5: highlighting the second and last instance of word A
with its color armed disables the color control bound to A and clears
the armed selection. -/
theorem guidedColorControl_single_use_witness :
    sampleGuided.selectedColor = some ("#f5d3ed") ∧
    sampleGuided.selectedWord = some ("A") ∧
    (1 : Nat) ∉ sampleGuided.highlighted ∧
    sampleGuidedWords.getD 1 ("") = "A" ∧
    (∀ j, j < sampleGuidedWords.length → sampleGuidedWords.getD j ("") = "A" →
        j ∈ insert 1 sampleGuided.highlighted) ∧
    (("A" ∈ ((guidedWordClick sampleGuidedWords 1 sampleGuided).1).disabledColors ∧
      ((guidedWordClick sampleGuidedWords 1 sampleGuided).1).selectedColor = none ∧
      ((guidedWordClick sampleGuidedWords 1 sampleGuided).1).selectedWord = none) ∧
     (∀ (t : GuidedState) (ws : List String) (j : Nat) (sp : Bool) (c2 w2 : String),
        "A" ∈ t.disabledColors →
          "A" ∈ ((guidedWordClick ws j t).1).disabledColors ∧
          "A" ∈ ((guidedColorClick sp c2 w2 t).1).disabledColors ∧
          guidedColorClick sp c2 ("A") t = (t, none))) :=
  ⟨rfl, rfl, by decide, by decide, by decide,
   guidedColorControl_single_use sampleGuidedWords 1 ("#f5d3ed") ("A") sampleGuided
     rfl rfl (by decide) (by decide) (by decide)⟩

/-- C6 counterexample: clicking an already highlighted instance of word
A while the color bound to the different word B is armed is a silent
no-op: no corrective spoken message is produced, refuting that every
click on a word with a different word's color armed yields one. -/
theorem guidedWordClick_highlighted_silent :
    sampleGuidedMismatch.selectedWord = some ("B") ∧
    sampleGuidedWords.getD 0 ("") ≠ "B" ∧
    (0 : Nat) ∈ sampleGuidedMismatch.highlighted ∧
    guidedWordClick sampleGuidedWords 0 sampleGuidedMismatch =
      (sampleGuidedMismatch, none) :=
  ⟨rfl, by decide, by decide, by decide⟩

/-- C6 amended: clicking a word instance that is not yet highlighted,
while a different word's color is armed, speaks a corrective message
naming the clicked word and the expected word, and leaves the state -
ledger and armed selection included - unchanged; a click on an already
highlighted instance is instead a silent no-op. -/
theorem guidedWordClick_wrong_word_feedback (words : List String) (i : Nat)
    (c w : String) (s : GuidedState)
    (hc : s.selectedColor = some c) (hw : s.selectedWord = some w)
    (hh : i ∉ s.highlighted) (hm : words.getD i ("") ≠ w) :
    guidedWordClick words i s =
      (s, some ("That\x27s " ++ words.getD i ("") ++ ". Please highlight " ++ w ++ ".")) := by
  have hbeq : (words.getD i ("") == w) = false := by simpa using hm
  have hm' : ¬ words[i]?.getD "" = w := by simpa using hm
  simp only [guidedWordClick, hc, hw]
  rw [if_neg hh]
  simp [hbeq, hm']

/-- Witness for the amended C6 statement: with the color bound to B
armed and nothing highlighted, clicking instance 0 (word A) produces the
corrective message and changes nothing. -/
theorem guidedWordClick_wrong_word_feedback_witness :
    sampleGuidedFresh.selectedColor = some ("#f9a2a2") ∧
    sampleGuidedFresh.selectedWord = some ("B") ∧
    (0 : Nat) ∉ sampleGuidedFresh.highlighted ∧
    sampleGuidedWords.getD 0 ("") ≠ "B" ∧
    guidedWordClick sampleGuidedWords 0 sampleGuidedFresh =
      (sampleGuidedFresh,
       some ("That\x27s " ++ sampleGuidedWords.getD 0 ("") ++
         ". Please highlight " ++ "B" ++ ".")) :=
  ⟨rfl, rfl, by decide, by decide,
   guidedWordClick_wrong_word_feedback sampleGuidedWords 0 ("#f9a2a2") ("B")
     sampleGuidedFresh rfl rfl (by decide) (by decide)⟩

/-- C8: the sentence builder of checkPracticeAnswers in src/app.js (line
542) uses the plural wording even for a count of 1 - its Conscious group
(count 1) renders with are/answers - while the builder shared by
showScreen6Explanation, showScreen7Explanation and checkPracticeAnswers
in src/unnamed/part_000 uses the singular wording exactly at count 1, as
the claim requires; the two builders disagree at that input. -/
theorem appjs_singular_count_divergence :
    appJsGroupSentence 1 ("yellow") ("Conscious") =
      "There are 1 answers that are coloured yellow for Conscious." ∧
    groupSentence 1 ("yellow") ("Conscious") =
      "There is 1 answer that is coloured yellow for Conscious." ∧
    appJsGroupSentence 1 ("yellow") ("Conscious") ≠
      groupSentence 1 ("yellow") ("Conscious") :=
  ⟨rfl, rfl, by decide⟩

end DyslexiaAid
